import Mathlib

/-!
# A shallow embedding of `argcheck` (jboy/argcheck-python3)

This file models, in Lean 4, the core of the `argcheck` Python package:

* `src/argcheck/checks.py`   — the check catalogue (`isTypeEqualTo`,
  `isTypeOfSequence`, `isNotEmpty`, `isMonotonicIncr`, `isPositive`,
  `eachAll` and the `_AbstractEachCheck` constructor);
* `src/argcheck/impl.py`     — the annotation compiler
  (`_eval_PEP_484_param_annot`, `_eval_metadata_tuple`,
  `_eval_one_metadata_value`) and the call binder/executor
  (`check_args_one_call`, `_check_one_param_one_arg`);
* `src/argcheck/exceptions.py` — the exception taxonomy, modelled as an
  inductive error type;
* `src/argcheck/__init__.py` — the package's public import list, modelled
  as a name-lookup into the `checks` module namespace.

Python values are modelled by the inductive type `PyVal`, covering the
built-in types the package's checks interact with (`int`, `bool`, `str`,
`list`, `tuple`, `None`) plus one user-defined class with no special
methods (`MyClass` from the repository's test-suite).  Python semantics
used by the source (`isinstance` with `bool` a subclass of `int`,
`len`, iteration, slicing, the lexicographic `>` on lists/tuples/strings,
truthiness of non-empty dicts) are embedded faithfully for this universe.
Exceptions are modelled by `Except`/explicit outcome types.
-/

namespace Argcheck

/-- The Python types appearing in the repository's code and tests.
`myClass` stands for the test-suite's `MyClass`: a user-defined class with
no sequence/len/comparison special methods. -/
inductive PyType where
  | int
  | bool
  | str
  | list
  | tuple
  | noneType
  | myClass
deriving DecidableEq, Repr

/-- The Python class name (`T.__name__`). -/
def pyTypeName : PyType → String
  | .int => "int"
  | .bool => "bool"
  | .str => "str"
  | .list => "list"
  | .tuple => "tuple"
  | .noneType => "NoneType"
  | .myClass => "MyClass"

/-- Python values of those types.  A `myClass` value carries the `x`
attribute of the test-suite's `MyClass(x)`. -/
inductive PyVal where
  | int (n : Int)
  | bool (b : Bool)
  | str (s : String)
  | list (xs : List PyVal)
  | tuple (xs : List PyVal)
  | noneVal
  | myClass (x : Int)
deriving Repr

/-- Python's `type(v)`. -/
def type_of : PyVal → PyType
  | .int _ => .int
  | .bool _ => .bool
  | .str _ => .str
  | .list _ => .list
  | .tuple _ => .tuple
  | .noneVal => .noneType
  | .myClass _ => .myClass

/-- Python's `isinstance(v, T)` for this universe.  The only strict
subclass relation among these types is `bool` <: `int`. -/
def pyIsinstance (v : PyVal) (T : PyType) : Bool :=
  (type_of v == T) || (type_of v == .bool && T == .int)

/-- The numeric value of a Python number: `bool` is a subtype of `int`,
with `True == 1` and `False == 0`.  `none` for non-numbers. -/
def pyNum : PyVal → Option Int
  | .int n => some n
  | .bool b => some (if b then 1 else 0)
  | _ => none

mutual

/-- Python's `==` restricted to this universe (never raises for these
built-ins; values of different non-numeric types are unequal).  Two
`MyClass` values are compared as if object identity coincided with the
stored attribute. -/
def pyEq : PyVal → PyVal → Bool
  | .str a, .str b => a == b
  | .list a, .list b => pyEqList a b
  | .tuple a, .tuple b => pyEqList a b
  | .noneVal, .noneVal => true
  | .myClass a, .myClass b => a == b
  | a, b =>
      match pyNum a, pyNum b with
      | some x, some y => x == y
      | _, _ => false

/-- Elementwise equality of Python lists/tuples. -/
def pyEqList : List PyVal → List PyVal → Bool
  | [], [] => true
  | a :: as, b :: bs => pyEq a b && pyEqList as bs
  | _, _ => false

end

mutual

/-- Python's `a > b` for this universe: `some r` when the comparison is
supported, `none` when Python would raise a `TypeError`.  Numbers compare
numerically (`bool` as `0`/`1`), strings and lists/tuples compare
lexicographically; everything else is unordered. -/
def pyGt : PyVal → PyVal → Option Bool
  | .str a, .str b => some (decide (b < a))
  | .list a, .list b => pyGtList a b
  | .tuple a, .tuple b => pyGtList a b
  | a, b =>
      match pyNum a, pyNum b with
      | some x, some y => some (decide (y < x))
      | _, _ => none

/-- Python's lexicographic `>` on lists: skip equal prefixes, decide at the
first unequal pair (which may itself raise), and a proper prefix is
smaller. -/
def pyGtList : List PyVal → List PyVal → Option Bool
  | [], [] => some false
  | _ :: _, [] => some true
  | [], _ :: _ => some false
  | a :: as, b :: bs => if pyEq a b then pyGtList as bs else pyGt a b

end

/-- Python's `len(x)`: `some` for the sized built-ins, `none` when Python
raises a `TypeError` (no `__len__`). -/
def pyLen : PyVal → Option Nat
  | .list xs => some xs.length
  | .tuple xs => some xs.length
  | .str s => some s.length
  | _ => none

/-- Python's iteration `for elem in x`: the sequence of elements for the
iterable built-ins (a string yields its characters as 1-character
strings), `none` when Python raises a `TypeError` (not iterable). -/
def pyIter : PyVal → Option (List PyVal)
  | .list xs => some xs
  | .tuple xs => some xs
  | .str s => some (s.data.map (fun c => PyVal.str (String.singleton c)))
  | _ => none

/-- Python's slice `x[i:]` for the sliceable built-ins (only reached by the
source after `len(x)` succeeded; identity otherwise). -/
def pySliceFrom : PyVal → Nat → PyVal
  | .list xs, i => .list (xs.drop i)
  | .tuple xs, i => .tuple (xs.drop i)
  | .str s, i => .str (String.mk (s.data.drop i))
  | x, _ => x

/-- Python's slice `x[i:-1]` (elements `i` to `len x - 2`) for the
sliceable built-ins (only reached by the source after `len(x)` succeeded;
identity otherwise). -/
def pySliceUpToLast : PyVal → Nat → PyVal
  | .list xs, i => .list ((xs.take (xs.length - 1)).drop i)
  | .tuple xs, i => .tuple ((xs.take (xs.length - 1)).drop i)
  | .str s, i => .str (String.mk ((s.data.take (s.data.length - 1)).drop i))
  | x, _ => x

/-- The seven attributes that `isTypeOfSequence.is_valid` duck-types on:
`__getitem__`, `__len__`, `__contains__`, `__iter__`, `__reversed__`,
`index`, `count` (`checks.py` lines 125-128). -/
inductive SeqAttr where
  | getitem
  | lenAttr
  | containsAttr
  | iterAttr
  | reversedAttr
  | indexAttr
  | countAttr
deriving DecidableEq, Repr

/-- Python's `hasattr(x, a)` for the seven duck-typed sequence attributes:
`list` has all seven; `str` and `tuple` lack `__reversed__` (as recorded
in the source's comment, `checks.py` lines 104-110) but have the rest;
`int`, `bool`, `None` and `MyClass` have none of them. -/
def hasattr (x : PyVal) (a : SeqAttr) : Bool :=
  match x, a with
  | .list _, _ => true
  | .str _, .reversedAttr => false
  | .str _, _ => true
  | .tuple _, .reversedAttr => false
  | .tuple _, _ => true
  | _, _ => false

end Argcheck

namespace Argcheck

/-- Describes a single declared function parameter for exceptions
(`impl.py` class `_DeclFuncParam`). -/
structure DeclFuncParam where
  idx : Nat
  name : String
deriving DecidableEq, Repr

/-- The value-check classes that the metadata compiler may
default-construct (the `_AbstractArgValueCheck` subclasses of `checks.py`
whose `__init__` takes no arguments). -/
inductive ValueCheckKind where
  | isNotEmptyCls
  | isMonotonicIncrCls
  | isPositiveCls
deriving DecidableEq, Repr

mutual

/-- A PEP-484 / PEP-593 parameter annotation as traversed by
`_eval_PEP_484_param_annot` (`impl.py` lines 420-487): an
`Annotated[base, metadata...]` alias, a `Sequence[elem]` generic alias, a
plain class, or anything else (unrecognised; `descr` stands for the
offending object). -/
inductive Annot where
  | annotated (base : Annot) (metadata : List MetaItem)
  | sequenceOf (elem : Annot)
  | cls (T : PyType)
  | otherAnnot (descr : String)

/-- One `Annotated` metadata value as classified by
`_eval_one_metadata_value` (`impl.py` lines 536-585): a nested list/tuple,
an already-constructed check instance, a default-constructible value-check
class, some other class, or some other value (`descr` stands for the
offending object). -/
inductive MetaItem where
  | nested (items : List MetaItem)
  | inst (c : Check)
  | valueCheckCls (k : ValueCheckKind)
  | otherCls (T : PyType)
  | otherVal (descr : String)

/-- The check catalogue of `checks.py`: each constructor is one concrete
`_AbstractCheck` subclass, carrying its constructor arguments
(`isTypeEqualTo(type_declared)`, `isTypeOfSequence(type_declared)` whose
declared "type" is the generic-alias annotation itself, and
`eachAll(check_applied_to_each)`). -/
inductive Check where
  | isTypeEqualTo (type_declared : PyType)
  | isTypeOfSequence (type_declared : Annot)
  | isNotEmpty
  | isMonotonicIncr
  | isPositive
  | eachAll (check_applied_to_each : Check)

end

/-- `isinstance(c, _AbstractArgValueCheck)`: true for the value-check
classes (`isNotEmpty`, `isMonotonicIncr`, `isPositive` and the
`_AbstractEachCheck` subclass `eachAll`), false for the type checks. -/
def Check.isArgValueCheck : Check → Bool
  | .isNotEmpty => true
  | .isMonotonicIncr => true
  | .isPositive => true
  | .eachAll _ => true
  | _ => false

/-- Default-construct a value-check class (`one_metadata_value()`). -/
def ValueCheckKind.construct : ValueCheckKind → Check
  | .isNotEmptyCls => .isNotEmpty
  | .isMonotonicIncrCls => .isMonotonicIncr
  | .isPositiveCls => .isPositive

/-- The outcome of one `is_valid(x)` call: Python `True`; Python `False`;
a context `dict` (as returned by `eachAll.is_valid`, carrying the index
and value of the first failing element); or a raised
`_InternalExecutionError(operation_that_failed, value_that_caused_failure)`. -/
inductive CheckResult where
  | pass
  | fail
  | failWithContext (idx_within_sequence : Nat) (value_within_sequence : PyVal)
  | execError (operation_that_failed : String) (value_that_caused_failure : PyVal)
deriving Repr

/-- The generator loop of `isMonotonicIncr.is_valid` (`checks.py` lines
168-170): `all((x[i+1:] > x[i:-1]) for i in range(num_pairwise_comparisons))`.
Note the source compares the *slices* `x[i+1:]` and `x[i:-1]` with
Python's lexicographic `>`, not the elements `x[i+1]` and `x[i]`.
`remaining` counts the iterations left in `range`; `none` models a raised
`TypeError`/`ValueError`/`AttributeError` from a comparison. -/
def monoLoop (x : PyVal) : Nat → Nat → Option Bool
  | 0, _ => some true
  | remaining + 1, i =>
      match pyGt (pySliceFrom x (i + 1)) (pySliceUpToLast x i) with
      | none => none
      | some false => some false
      | some true => monoLoop x remaining (i + 1)

/-- The `for idx, elem in enumerate(x)` loop of `eachAll.is_valid`
(`checks.py` lines 258-262), with `is_valid_inner` the nested check's
bound `is_valid` method.  The loop body is
`if not check_applied_to_each.is_valid(elem): return dict(...)`: only a
Python-falsy inner result (`False`) triggers the early return — an inner
*context dict* (from a nested `eachAll`) is truthy, so the loop continues
past it.  A raised `_InternalExecutionError` from the inner check
propagates (it is not one of the caught `AttributeError`/`TypeError`/
`ValueError` classes). -/
def eachAll_loop (is_valid_inner : PyVal → CheckResult) :
    List PyVal → Nat → CheckResult
  | [], _ => .pass
  | elem :: rest, idx =>
      match is_valid_inner elem with
      | .fail => .failWithContext idx elem
      | .execError op v => .execError op v
      | .pass => eachAll_loop is_valid_inner rest (idx + 1)
      | .failWithContext _ _ => eachAll_loop is_valid_inner rest (idx + 1)

/-- `is_valid` of each concrete check of `checks.py`:

* `isTypeEqualTo.is_valid` (lines 67-68): `isinstance(x, self.type_declared)`;
* `isTypeOfSequence.is_valid` (lines 76-128): duck-typing on the seven
  `collections.abc.Sequence` attributes;
* `isNotEmpty.is_valid` (lines 139-144): `len(x) > 0`, re-raising a length
  failure as `_InternalExecutionError("len(x)", x)`;
* `isMonotonicIncr.is_valid` (lines 149-173): trivially true for length
  `<= 1`, otherwise the slice-comparison loop `monoLoop`; a length failure
  is `_InternalExecutionError("len(x)", x)` and a comparison failure is
  `_InternalExecutionError("x[i+1] > x[i]", x)`;
* `isPositive.is_valid` (lines 178-183): `x > 0`, re-raising a comparison
  failure as `_InternalExecutionError("x > 0", x)`;
* `eachAll.is_valid` (lines 255-268): iterate `enumerate(x)` via
  `eachAll_loop` applied to the nested check's `is_valid`; an iteration
  failure is `_InternalExecutionError("for elem in x", x)`. -/
def Check.is_valid : Check → PyVal → CheckResult
  | .isTypeEqualTo t, x => if pyIsinstance x t then .pass else .fail
  | .isTypeOfSequence _, x =>
      if hasattr x .getitem && hasattr x .lenAttr &&
          hasattr x .containsAttr && hasattr x .iterAttr &&
          hasattr x .reversedAttr &&
          hasattr x .indexAttr && hasattr x .countAttr then .pass else .fail
  | .isNotEmpty, x =>
      match pyLen x with
      | none => .execError "len(x)" x
      | some n => if 0 < n then .pass else .fail
  | .isMonotonicIncr, x =>
      match pyLen x with
      | none => .execError "len(x)" x
      | some num_elems =>
          if num_elems ≤ 1 then .pass
          else
            match monoLoop x (num_elems - 1) 0 with
            | none => .execError "x[i+1] > x[i]" x
            | some true => .pass
            | some false => .fail
  | .isPositive, x =>
      match pyGt x (.int 0) with
      | none => .execError "x > 0" x
      | some b => if b then .pass else .fail
  | .eachAll c, x =>
      match pyIter x with
      | none => .execError "for elem in x" x
      | some elems => eachAll_loop (Check.is_valid c) elems 0

end Argcheck

namespace Argcheck

/-- Errors of the annotation-compilation phase (`exceptions.py`):
`AnnotationCompilationError(param, annotation, problem)` — the annotation
is recorded by a textual description — plus the raw `IndexError` that
`check_for_nested_type[0]` would raise on an empty tuple. -/
inductive CompErr where
  | annotationCompilationError (param : DeclFuncParam) (annot_descr : String)
      (problem : String)
  | indexError (msg : String)
deriving Repr

mutual

/-- `_eval_PEP_484_param_annot` (`impl.py` lines 420-487).  Branches in
source order: an `Annotated[type, metadata]` alias compiles the type part
and the metadata part and concatenates; a `Sequence[elem]` generic alias
compiles `elem` and returns exactly
`(isTypeOfSequence(annot), eachAll(check_for_nested_type[0]))` — note the
`[0]`: only the *first* check compiled from `elem` is wrapped; a plain
class yields `(isTypeEqualTo(annot),)`; anything else raises
`AnnotationCompilationError`. -/
def _eval_PEP_484_param_annot (func_name : String) (param_idx : Nat)
    (param_name : String) : Annot → Except CompErr (List Check)
  | .annotated base metadata =>
      match _eval_PEP_484_param_annot func_name param_idx param_name base with
      | .error e => .error e
      | .ok type_to_check =>
          match _eval_metadata_tuple func_name param_idx param_name metadata with
          | .error e => .error e
          | .ok metadata_to_check => .ok (type_to_check ++ metadata_to_check)
  | .sequenceOf elem =>
      match _eval_PEP_484_param_annot func_name param_idx param_name elem with
      | .error e => .error e
      | .ok (c0 :: _) =>
          .ok [Check.isTypeOfSequence (.sequenceOf elem), Check.eachAll c0]
      | .ok [] => .error (.indexError "tuple index out of range")
  | .cls T => .ok [Check.isTypeEqualTo T]
  | .otherAnnot descr =>
      .error (.annotationCompilationError ⟨param_idx, param_name⟩ descr
          "unrecognised PEP-484 / PEP-593 type-hint annotation")

/-- `_eval_metadata_tuple` (`impl.py` lines 490-533): evaluate each
metadata element in turn and flatten nested lists/tuples by extending
rather than appending. -/
def _eval_metadata_tuple (func_name : String) (param_idx : Nat)
    (param_name : String) : List MetaItem → Except CompErr (List Check)
  | [] => .ok []
  | m :: ms =>
      match _eval_one_metadata_value func_name param_idx param_name m with
      | .error e => .error e
      | .ok one_metadata_to_check =>
          match _eval_metadata_tuple func_name param_idx param_name ms with
          | .error e => .error e
          | .ok rest => .ok (one_metadata_to_check ++ rest)

/-- `_eval_one_metadata_value` (`impl.py` lines 536-585).  Branches in
source order: a nested list/tuple is recursively evaluated; an
`_AbstractArgValueCheck` instance is returned as-is; a class is
default-constructed when it subclasses `_AbstractArgValueCheck` and is a
compilation error otherwise; any other value is a compilation error. -/
def _eval_one_metadata_value (func_name : String) (param_idx : Nat)
    (param_name : String) : MetaItem → Except CompErr (List Check)
  | .nested items => _eval_metadata_tuple func_name param_idx param_name items
  | .inst c =>
      if c.isArgValueCheck then .ok [c]
      else
        .error (.annotationCompilationError ⟨param_idx, param_name⟩ "check instance"
            "expected a value-check instance; received value of some other type")
  | .valueCheckCls k => .ok [k.construct]
  | .otherCls T =>
      .error (.annotationCompilationError ⟨param_idx, param_name⟩ (pyTypeName T)
          "expected a value-check class; received some other class")
  | .otherVal descr =>
      .error (.annotationCompilationError ⟨param_idx, param_name⟩ descr
          "expected a value-check instance; received some other value")

end

/-- One declared parameter as captured at registration: name, optional
default value, optional PEP-484 annotation.  Only the
positional-or-keyword parameter kind is modelled (the kind used by every
function declaration in the repository's test-suite). -/
structure PyParam where
  name : String
  dflt : Option PyVal
  annot : Option Annot

/-- The per-parameter compilation loop of `_ArgChecksForOneFuncDecl.__init__`
(`impl.py` lines 223-238): for each declared parameter, evaluate its
annotation into a tuple of checks if one was provided, else an empty
tuple.  A compilation error aborts the registration. -/
def argChecksForParamsLoop (func_name : String) :
    Nat → List PyParam → Except CompErr (List (PyParam × List Check))
  | _, [] => .ok []
  | param_idx, p :: ps =>
      match (match p.annot with
             | some a => _eval_PEP_484_param_annot func_name param_idx p.name a
             | none => .ok []) with
      | .error e => .error e
      | .ok checks =>
          match argChecksForParamsLoop func_name (param_idx + 1) ps with
          | .error e => .error e
          | .ok rest => .ok ((p, checks) :: rest)

/-- `_ArgChecksForOneFuncDecl(func)` as run by the `validate_call`
decorator at registration time (`impl.py` lines 203-238 and 588-601):
compile every annotated parameter's checks, once, before any call. -/
def validate_call_register (func_name : String) (params : List PyParam) :
    Except CompErr (List (PyParam × List Check)) :=
  argChecksForParamsLoop func_name 0 params

/-- How an argument reached a parameter, for diagnostics (`impl.py` class
`_FuncCallArg` attribute `idx_or_kwd`): the parameter index when passed
positionally, the keyword when passed by keyword. -/
inductive IdxOrKwd where
  | idx (i : Nat)
  | kwd (k : String)
deriving DecidableEq, Repr

/-- Describes a single function call argument for exceptions (`impl.py`
class `_FuncCallArg`). -/
structure FuncCallArg where
  idx_or_kwd : IdxOrKwd
  val : PyVal
deriving Repr

/-- The `type_declared` attribute of an `_AbstractTypeCheck`: a plain
class for `isTypeEqualTo`, the generic-alias annotation itself for
`isTypeOfSequence`. -/
inductive TypeDeclared where
  | cls (T : PyType)
  | seqAnnot (a : Annot)

/-- The call-time exceptions of `exceptions.py` that can leave
`check_args_one_call`, each with exactly its constructor attributes:
`CallArgBindingRejection(exception_args)`,
`CallArgTypeCheckViolation(param, arg, check, type_declared, type_received)`,
`CallArgValueCheckViolation(param, arg, check)`,
`CallArgEachCheckViolation(param, arg, check, idx_within_sequence,
value_within_sequence)` and `CallArgCheckExecutionError(param, arg,
during_check, operation_that_failed, value_that_caused_failure)`.
`keyError` models the raw `KeyError` a missing dict key would raise
(unreachable on the paths proved below). -/
inductive ArgCheckExc where
  | callArgBindingRejection (exception_args : String)
  | callArgTypeCheckViolation (param : DeclFuncParam) (arg : FuncCallArg)
      (check : Check) (type_declared : TypeDeclared) (type_received : PyType)
  | callArgValueCheckViolation (param : DeclFuncParam) (arg : FuncCallArg)
      (check : Check)
  | callArgEachCheckViolation (param : DeclFuncParam) (arg : FuncCallArg)
      (check : Check) (idx_within_sequence : Nat)
      (value_within_sequence : PyVal)
  | callArgCheckExecutionError (param : DeclFuncParam) (arg : FuncCallArg)
      (during_check : Check) (operation_that_failed : String)
      (value_that_caused_failure : PyVal)
  | keyError (key : String)

/-- `to_raise_on_failed_check(param, arg, **kwargs)` of each check class
(`checks.py` lines 44-47, 133-134, 233-237): a type check raises
`CallArgTypeCheckViolation` carrying its declared type and
`type(arg.val)`; an each-check raises `CallArgEachCheckViolation` reading
`idx_within_sequence`/`value_within_sequence` from its kwargs (a missing
kwarg would be a `KeyError`); a value check raises
`CallArgValueCheckViolation`. -/
def Check.to_raise_on_failed_check (check : Check) (param : DeclFuncParam)
    (arg : FuncCallArg) (context : Option (Nat × PyVal)) : ArgCheckExc :=
  match check with
  | .isTypeEqualTo t =>
      .callArgTypeCheckViolation param arg check (.cls t) (type_of arg.val)
  | .isTypeOfSequence a =>
      .callArgTypeCheckViolation param arg check (.seqAnnot a) (type_of arg.val)
  | .eachAll _ =>
      match context with
      | some (i, e) => .callArgEachCheckViolation param arg check i e
      | none => .keyError "idx_within_sequence"
  | _ => .callArgValueCheckViolation param arg check

/-- `arg_idx_or_kwd = (arg_kwd if arg_kwd is not None else param_idx)`
(`impl.py` lines 395-396). -/
def argIdxOrKwd (arg_kwd : Option String) (param_idx : Nat) : IdxOrKwd :=
  match arg_kwd with
  | some k => .kwd k
  | none => .idx param_idx

/-- `_ArgChecksForOneFuncDecl._check_one_param_one_arg` (`impl.py` lines
366-417): run the parameter's compiled checks in order against the bound
argument.  A result `== True` continues; any other result is a failure
whose context dict (if the check returned one) feeds
`to_raise_on_failed_check`; a raised `_InternalExecutionError` is caught
and re-raised as `CallArgCheckExecutionError` naming the check that was
executing, the operation that failed and the offending value. -/
def _check_one_param_one_arg (param_idx : Nat) (decl_param_name : String)
    (arg_kwd : Option String) (bound_arg : PyVal) :
    List Check → Except ArgCheckExc Unit
  | [] => .ok ()
  | check :: rest =>
      match Check.is_valid check bound_arg with
      | .pass =>
          _check_one_param_one_arg param_idx decl_param_name arg_kwd bound_arg rest
      | .fail =>
          .error (check.to_raise_on_failed_check ⟨param_idx, decl_param_name⟩
              ⟨argIdxOrKwd arg_kwd param_idx, bound_arg⟩ none)
      | .failWithContext i e =>
          .error (check.to_raise_on_failed_check ⟨param_idx, decl_param_name⟩
              ⟨argIdxOrKwd arg_kwd param_idx, bound_arg⟩ (some (i, e)))
      | .execError op v =>
          .error (.callArgCheckExecutionError ⟨param_idx, decl_param_name⟩
              ⟨argIdxOrKwd arg_kwd param_idx, bound_arg⟩ check op v)

end Argcheck

namespace Argcheck

/-- Association lookup in a keyword-argument dict. -/
def lookupKwd (kwd_args : List (String × PyVal)) (name : String) : Option PyVal :=
  match kwd_args with
  | [] => none
  | (k, v) :: rest => if k == name then some v else lookupKwd rest name

/-- Remove a consumed keyword from the keyword-argument dict. -/
def removeKwd (kwd_args : List (String × PyVal)) (name : String) :
    List (String × PyVal) :=
  match kwd_args with
  | [] => []
  | (k, v) :: rest =>
      if k == name then removeKwd rest name else (k, v) :: removeKwd rest name

/-- The keyword phase of the external binding facility
(`inspect.Signature.bind` followed by `BoundArguments.apply_defaults`,
called by `check_args_one_call`, `impl.py` lines 252-254), modelled from
the documented CPython semantics for positional-or-keyword parameters:
each remaining parameter takes its keyword argument if supplied, else its
default; a parameter with neither raises
`TypeError("missing a required argument: '<name>'")`; a keyword matching
no parameter raises
`TypeError("got an unexpected keyword argument '<name>'")`.  On success
the bound values are listed in parameter-declaration order. -/
def Signature_bind_kwdPhase (params : List PyParam)
    (kwd_args : List (String × PyVal)) : Except String (List (String × PyVal)) :=
  match params with
  | [] =>
      match kwd_args with
      | [] => .ok []
      | (k, _) :: _ => .error ("got an unexpected keyword argument '" ++ k ++ "'")
  | p :: ps =>
      match lookupKwd kwd_args p.name with
      | some v =>
          match Signature_bind_kwdPhase ps (removeKwd kwd_args p.name) with
          | .error e => .error e
          | .ok rest => .ok ((p.name, v) :: rest)
      | none =>
          match p.dflt with
          | some d =>
              match Signature_bind_kwdPhase ps kwd_args with
              | .error e => .error e
              | .ok rest => .ok ((p.name, d) :: rest)
          | none => .error ("missing a required argument: '" ++ p.name ++ "'")

/-- The positional phase of the external binding facility: positional
arguments are matched to parameters in order; more positional arguments
than parameters raises `TypeError("too many positional arguments")`; a
parameter receiving both a positional and a keyword argument raises
`TypeError("multiple values for argument '<name>'")`; the remaining
parameters go to the keyword phase. -/
def Signature_bind_apply_defaults (params : List PyParam) (pos_args : List PyVal)
    (kwd_args : List (String × PyVal)) : Except String (List (String × PyVal)) :=
  match pos_args, params with
  | [], ps => Signature_bind_kwdPhase ps kwd_args
  | _ :: _, [] => .error "too many positional arguments"
  | a :: as, p :: ps =>
      if (lookupKwd kwd_args p.name).isSome then
        .error ("multiple values for argument '" ++ p.name ++ "'")
      else
        match Signature_bind_apply_defaults ps as kwd_args with
        | .error e => .error e
        | .ok rest => .ok ((p.name, a) :: rest)

/-- The per-parameter loop of `check_args_one_call` (`impl.py` lines
305-364) restricted to positional-or-keyword parameters: look up each
declared parameter's bound argument by name, determine whether it was
actually passed by keyword (`param_name in kwd_args`), and run the
parameter's compiled checks against it via `_check_one_param_one_arg`.
(A name missing from the bound arguments would be a raw `KeyError`;
unreachable, since binding listed every parameter.) -/
def checkParamsLoop (bound_arguments : List (String × PyVal))
    (kwd_args : List (String × PyVal)) :
    Nat → List (PyParam × List Check) → Except ArgCheckExc Unit
  | _, [] => .ok ()
  | param_idx, (p, arg_checks_for_param) :: rest =>
      match lookupKwd bound_arguments p.name with
      | none => .error (.keyError p.name)
      | some bound_arg =>
          let arg_kwd := if (lookupKwd kwd_args p.name).isSome
            then some p.name else none
          match _check_one_param_one_arg param_idx p.name arg_kwd bound_arg
              arg_checks_for_param with
          | .error e => .error e
          | .ok _ => checkParamsLoop bound_arguments kwd_args (param_idx + 1) rest

/-- `_ArgChecksForOneFuncDecl.check_args_one_call(pos_args, kwd_args)`
(`impl.py` lines 240-364): delegate binding (and default application) to
the external facility; a `TypeError` from it is re-raised as
`CallArgBindingRejection` wrapping the binder's own message — before any
check is consulted.  On successful binding, check every parameter's bound
argument in declaration order. -/
def check_args_one_call (arg_checks_for_params : List (PyParam × List Check))
    (pos_args : List PyVal) (kwd_args : List (String × PyVal)) :
    Except ArgCheckExc Unit :=
  match Signature_bind_apply_defaults (arg_checks_for_params.map Prod.fst)
      pos_args kwd_args with
  | .error e => .error (.callArgBindingRejection e)
  | .ok bound_arguments =>
      checkParamsLoop bound_arguments kwd_args 0 arg_checks_for_params

/-- `CallingLocation` (`checks.py` line 186): the file name and line
number, outside the `checks` module, of the code that constructed a
check (as found by `_get_calling_location`'s stack walk). -/
structure CallingLocation where
  file_name : String
  line_num : Nat
deriving DecidableEq, Repr

/-- The `_AbstractCheck` subclasses as *classes* (the objects passed when
client code writes `eachAll(isNotEmpty)` instead of
`eachAll(isNotEmpty())`).  `default_construct` is `cls()`: `some` for the
classes whose `__init__` takes no argument, `none` for those whose
`__init__` requires one (calling those raises a `TypeError`). -/
inductive CheckClsKind where
  | isTypeEqualToCls
  | isTypeOfSequenceCls
  | isNotEmptyCls
  | isMonotonicIncrCls
  | isPositiveCls
  | eachAllCls
deriving DecidableEq, Repr

/-- `cls()` for a check class: the constructed check, or `none` when the
constructor requires arguments. -/
def CheckClsKind.default_construct : CheckClsKind → Option Check
  | .isNotEmptyCls => some .isNotEmpty
  | .isMonotonicIncrCls => some .isMonotonicIncr
  | .isPositiveCls => some .isPositive
  | _ => none

/-- What client code can pass to `eachAll(...)`: an `_AbstractCheck`
instance, an `_AbstractCheck` subclass, some other class, or some other
(non-class) value. -/
inductive EachCtorArg where
  | inst (c : Check)
  | checkCls (k : CheckClsKind)
  | otherCls (T : PyType)
  | otherVal (v : PyVal)

/-- The outcome of `_AbstractEachCheck.__init__`: a constructed `eachAll`;
a raised `AnnotationConstructionError(check_type, calling_location,
problem)`; or a raw Python `TypeError` that escapes the constructor. -/
inductive EachCtorOutcome where
  | ok (constructed : Check)
  | annotationConstructionError (check_type : String) (loc : CallingLocation)
      (problem : String)
  | typeErrorRaised (msg : String)

/-- `_AbstractEachCheck.__init__(check_applied_to_each)` (`checks.py`
lines 211-230), as run by `eachAll(...)`:

* `isinstance(arg, _AbstractCheck)` — store the instance;
* `elif issubclass(arg, _AbstractCheck)` — default-construct it (`arg()`;
  a class whose `__init__` requires arguments makes that call raise a
  `TypeError`); when `arg` is not a class at all, `issubclass` itself
  raises `TypeError("issubclass() arg 1 must be a class")`, so the `else`
  branch is never reached for non-class values;
* `else` — raise `AnnotationConstructionError(type(self),
  _get_calling_location(), "expected an _AbstractCheck instance; ...")`,
  tagged with the construction site's file and line. -/
def _AbstractEachCheck_init (check_applied_to_each : EachCtorArg)
    (calling_location : CallingLocation) : EachCtorOutcome :=
  match check_applied_to_each with
  | .inst c => .ok (.eachAll c)
  | .checkCls k =>
      match k.default_construct with
      | some c => .ok (.eachAll c)
      | none => .typeErrorRaised "__init__() missing required positional arguments"
  | .otherCls T =>
      .annotationConstructionError "eachAll" calling_location
          ("expected an _AbstractCheck instance; received value: " ++ pyTypeName T)
  | .otherVal _ => .typeErrorRaised "issubclass() arg 1 must be a class"

/-- The names in the `argcheck.checks` module namespace after the module
body runs (`checks.py`): its imports (lines 6-14; the `*`-import from
`exceptions` contributes the ten public exception classes) followed by
its own top-level definitions. -/
def checks_module_names : List String :=
  ["_inspect", "ABC", "abstractmethod", "namedtuple",
   "_get_repr_that_recreates", "_InternalExecutionError",
   "AnnotationConstructionError", "ArgCheckException",
   "AnnotationCompilationError", "CallArgBindingRejection",
   "CallArgCheckException", "CallArgCheckExecutionError",
   "CallArgCheckViolation", "CallArgTypeCheckViolation",
   "CallArgValueCheckViolation", "CallArgEachCheckViolation",
   "_AbstractCheck", "_AbstractTypeCheck", "isTypeEqualTo",
   "isTypeOfSequence", "_AbstractArgValueCheck", "isNotEmpty",
   "isMonotonicIncr", "isPositive", "CallingLocation",
   "_get_calling_location", "_AbstractEachCheck", "eachAll"]

/-- The names `argcheck/__init__.py` line 9-11 requests from `.checks`:
`from .checks import (isTypeEqualTo, isTypeSequence, isNotEmpty,
isMonotonicIncr, isPositive, eachAll)`. -/
def init_names_imported_from_checks : List String :=
  ["isTypeEqualTo", "isTypeSequence", "isNotEmpty", "isMonotonicIncr",
   "isPositive", "eachAll"]

/-- The result of a `from <module> import (names...)` statement. -/
inductive ImportResult where
  | ok
  | importError (name : String) (module_name : String)
deriving DecidableEq, Repr

/-- Python's `from <module> import (names...)`: each requested name is
looked up in the module's namespace; the first one not found raises
`ImportError: cannot import name '<name>' from '<module>'`. -/
def from_import (module_names : List String) (requested : List String)
    (module_name : String) : ImportResult :=
  match requested.find? (fun n => !module_names.contains n) with
  | some n => .importError n module_name
  | none => .ok

/-- Executing `import argcheck` runs `argcheck/__init__.py`, whose first
statement is the `from .checks import (...)` at lines 9-11. -/
def import_argcheck_package : ImportResult :=
  from_import checks_module_names init_names_imported_from_checks
      "argcheck.checks"

/-- Modelled from the spec: the `MonotonicIncreasing` predicate of §4.1 —
"Pass iff for 0 or 1 elements, trivially true; otherwise every adjacent
pair satisfies `value[i+1] > value[i]`" — stated over integer sequences,
for comparison with the source's `isMonotonicIncr.is_valid`. -/
def spec_MonotonicIncreasing : List Int → Bool
  | [] => true
  | [_] => true
  | a :: b :: rest => (a < b) && spec_MonotonicIncreasing (b :: rest)

end Argcheck

namespace Argcheck

/-- If the inner check's `is_valid` returns `True` on every element of the
sequence, the `eachAll` loop reaches the end and returns `True`. -/
theorem eachAll_loop_pass (f : PyVal → CheckResult) (xs : List PyVal) (i : Nat)
    (h : ∀ v ∈ xs, f v = .pass) : eachAll_loop f xs i = .pass := by
  induction xs generalizing i with
  | nil => rfl
  | cons a as ih =>
      have ha : f a = .pass := h a (List.mem_cons_self a as)
      rw [eachAll_loop, ha]
      exact ih (i + 1) (fun v hv => h v (List.mem_cons_of_mem a hv))

end Argcheck

namespace Argcheck

/-- **C1** (code bug).  The claim: `MonotonicIncreasing`
(`isMonotonicIncr.is_valid`) passes every sequence of 0 or 1 elements and,
for 2 or more elements, passes iff every adjacent pair satisfies
`s[i+1] > s[i]` — in particular it must fail on `[1, 1, 2]`.  Evaluating
the source at that input: the source compares the *slices*
`x[i+1:] > x[i:-1]` with Python's lexicographic list `>` instead of
comparing the elements, so `[1, 1, 2]` *passes* even though the spec's
adjacent-pairs predicate rejects it.  (The 0/1-element cases and `[3, 1]`
behave as the claim says.) -/
theorem C1_isMonotonicIncr_slice_comparison_accepts_1_1_2 :
    Check.is_valid .isMonotonicIncr (.list [.int 1, .int 1, .int 2]) = .pass
    ∧ spec_MonotonicIncreasing [1, 1, 2] = false
    ∧ Check.is_valid .isMonotonicIncr (.list []) = .pass
    ∧ Check.is_valid .isMonotonicIncr (.list [.int 3]) = .pass
    ∧ Check.is_valid .isMonotonicIncr (.list [.int 3, .int 1]) = .fail :=
  ⟨rfl, rfl, rfl, rfl, rfl⟩

/-- **C2** (counterexample).  The claim says a `Sequence[elem]` annotation
whose nested `elem` compiles to more than one check must fail compilation
at registration time.  Concretely, `elem = Annotated[int, isPositive]`
compiles to *two* checks, yet registering a function with the parameter
annotation `Sequence[Annotated[int, isPositive]]` succeeds — and the
compiled checks wrap only `isTypeEqualTo(int)` in `eachAll`, silently
dropping `isPositive`. -/
theorem C2_counterexample_multi_check_elem_registration_succeeds :
    _eval_PEP_484_param_annot "f" 0 "p" (.annotated (.cls .int) [.inst .isPositive])
      = .ok [.isTypeEqualTo .int, .isPositive]
    ∧ validate_call_register "f"
        [⟨"p", none, some (.sequenceOf (.annotated (.cls .int) [.inst .isPositive]))⟩]
      = .ok [(⟨"p", none, some (.sequenceOf (.annotated (.cls .int) [.inst .isPositive]))⟩,
              [.isTypeOfSequence (.sequenceOf (.annotated (.cls .int) [.inst .isPositive])),
               .eachAll (.isTypeEqualTo .int)])] :=
  ⟨rfl, rfl⟩

/-- **C2** (amended).  Whenever the nested element description of a
`Sequence[elem]` annotation compiles to one or more checks, compilation of
`Sequence[elem]` *succeeds*, producing the sequence-shape check and
`eachAll` wrapping only the *first* nested check
(`check_for_nested_type[0]`, `impl.py` line 473); any further nested
checks are silently dropped, with no compilation error. -/
theorem C2_sequenceOf_wraps_only_first_nested_check (func_name : String)
    (param_idx : Nat) (param_name : String) (elem : Annot) (c0 : Check)
    (cs : List Check)
    (h : _eval_PEP_484_param_annot func_name param_idx param_name elem
          = .ok (c0 :: cs)) :
    _eval_PEP_484_param_annot func_name param_idx param_name (.sequenceOf elem)
      = .ok [.isTypeOfSequence (.sequenceOf elem), .eachAll c0] := by
  rw [_eval_PEP_484_param_annot, h]

/-- **C2** (witness).  The amended statement at the concrete annotation
`Sequence[Annotated[int, isPositive]]`, whose nested element compiles to
the two checks `isTypeEqualTo(int)` and `isPositive()`. -/
theorem C2_sequenceOf_wraps_only_first_nested_check_witness :
    _eval_PEP_484_param_annot "f" 0 "p"
        (.sequenceOf (.annotated (.cls .int) [.inst .isPositive]))
      = .ok [.isTypeOfSequence (.sequenceOf (.annotated (.cls .int) [.inst .isPositive])),
             .eachAll (.isTypeEqualTo .int)] :=
  C2_sequenceOf_wraps_only_first_nested_check "f" 0 "p"
      (.annotated (.cls .int) [.inst .isPositive]) (.isTypeEqualTo .int)
      [.isPositive] rfl

/-- **C3** (confirmed).  `argcheck/__init__.py` line 9 requests the name
`isTypeSequence` from the `argcheck.checks` module, but that module's
namespace defines `isTypeOfSequence` and no `isTypeSequence`; so running
the package body — the first thing `import argcheck` does — raises
`ImportError` at that name, before any function can be registered or any
call validated. -/
theorem C3_import_argcheck_raises_ImportError :
    import_argcheck_package = .importError "isTypeSequence" "argcheck.checks"
    ∧ checks_module_names.contains "isTypeSequence" = false
    ∧ checks_module_names.contains "isTypeOfSequence" = true :=
  ⟨by decide, by decide, by decide⟩

/-- **C4** (counterexample).  The claim says `TypeEquals(T)` fails on every
value `v` with `type(v) != T`.  But `isTypeEqualTo.is_valid` is
`isinstance(x, self.type_declared)` (`checks.py` line 68), and `bool` is a
subclass of `int`: `type(True) != int`, yet `isTypeEqualTo(int)` passes on
`True`. -/
theorem C4_counterexample_bool_passes_int_type_check :
    type_of (.bool true) ≠ PyType.int
    ∧ Check.is_valid (.isTypeEqualTo .int) (.bool true) = .pass :=
  ⟨by decide, rfl⟩

/-- **C4** (amended).  `TypeEquals(T)` passes on `v` iff `v` is an
*instance* of `T` — its runtime type is `T` or a subclass of `T` (so every
`v` with `type(v) == T` passes, but e.g. `bool` values also pass an `int`
check) — and fails otherwise; the violation built for a failure
(`_AbstractTypeCheck.to_raise_on_failed_check`, `checks.py` lines 44-47)
is a `CallArgTypeCheckViolation` carrying both the declared type `T` and
the received runtime type `type(v)`. -/
theorem C4_isTypeEqualTo_isinstance_and_violation (T : PyType) (v : PyVal)
    (param : DeclFuncParam) (iok : IdxOrKwd) :
    (Check.is_valid (.isTypeEqualTo T) v = .pass ↔ pyIsinstance v T = true)
    ∧ (Check.is_valid (.isTypeEqualTo T) v = .fail ↔ pyIsinstance v T = false)
    ∧ Check.to_raise_on_failed_check (.isTypeEqualTo T) param ⟨iok, v⟩ none
      = .callArgTypeCheckViolation param ⟨iok, v⟩ (.isTypeEqualTo T) (.cls T)
          (type_of v) := by
  refine ⟨?_, ?_, rfl⟩ <;> rw [Check.is_valid] <;> cases h : pyIsinstance v T <;> simp

end Argcheck

namespace Argcheck

/-- **C5** (confirmed).  Compiling the annotation `Sequence[T]` for a plain
class `T` yields exactly two checks — the sequence-shape check
`isTypeOfSequence` followed by `eachAll(isTypeEqualTo(T))`, in that order.
Running that pair on a parameter (`_check_one_param_one_arg`): a list
whose values all have type `T` passes both checks; a plain integer fails
the shape check, which terminates the checking of that value — the error
raised is the shape check's own `CallArgTypeCheckViolation`, so the
per-element check never runs. -/
theorem C5_SequenceOf_compiles_to_shape_then_each (func_name param_name : String)
    (param_idx : Nat) (T : PyType) (xs : List PyVal) (n : Int)
    (hxs : ∀ v ∈ xs, type_of v = T) :
    _eval_PEP_484_param_annot func_name param_idx param_name (.sequenceOf (.cls T))
      = .ok [.isTypeOfSequence (.sequenceOf (.cls T)), .eachAll (.isTypeEqualTo T)]
    ∧ _check_one_param_one_arg param_idx param_name none (.list xs)
        [.isTypeOfSequence (.sequenceOf (.cls T)), .eachAll (.isTypeEqualTo T)]
      = .ok ()
    ∧ _check_one_param_one_arg param_idx param_name none (.int n)
        [.isTypeOfSequence (.sequenceOf (.cls T)), .eachAll (.isTypeEqualTo T)]
      = .error (.callArgTypeCheckViolation ⟨param_idx, param_name⟩
          ⟨.idx param_idx, .int n⟩ (.isTypeOfSequence (.sequenceOf (.cls T)))
          (.seqAnnot (.sequenceOf (.cls T))) .int) := by
  refine ⟨by simp [_eval_PEP_484_param_annot], ?_, ?_⟩
  · have hpass : ∀ v ∈ xs, Check.is_valid (.isTypeEqualTo T) v = .pass := by
      intro v hv
      rw [Check.is_valid, pyIsinstance, hxs v hv]
      simp
    have h1 : Check.is_valid (.isTypeOfSequence (.sequenceOf (.cls T))) (.list xs)
        = .pass := by
      simp [Check.is_valid, hasattr]
    have h2 : Check.is_valid (.eachAll (.isTypeEqualTo T)) (.list xs) = .pass :=
      eachAll_loop_pass _ xs 0 hpass
    simp only [_check_one_param_one_arg, h1, h2]
  · simp [_check_one_param_one_arg, Check.is_valid, hasattr,
      Check.to_raise_on_failed_check, argIdxOrKwd, type_of]

/-- **C5** (witness).  The theorem at `T = int`, the list `[1, 2]` and the
plain integer `7`. -/
theorem C5_SequenceOf_compiles_to_shape_then_each_witness :
    _eval_PEP_484_param_annot "f" 0 "p" (.sequenceOf (.cls .int))
      = .ok [.isTypeOfSequence (.sequenceOf (.cls .int)),
             .eachAll (.isTypeEqualTo .int)]
    ∧ _check_one_param_one_arg 0 "p" none (.list [.int 1, .int 2])
        [.isTypeOfSequence (.sequenceOf (.cls .int)), .eachAll (.isTypeEqualTo .int)]
      = .ok ()
    ∧ _check_one_param_one_arg 0 "p" none (.int 7)
        [.isTypeOfSequence (.sequenceOf (.cls .int)), .eachAll (.isTypeEqualTo .int)]
      = .error (.callArgTypeCheckViolation ⟨0, "p"⟩ ⟨.idx 0, .int 7⟩
          (.isTypeOfSequence (.sequenceOf (.cls .int)))
          (.seqAnnot (.sequenceOf (.cls .int))) .int) :=
  C5_SequenceOf_compiles_to_shape_then_each "f" "p" 0 .int [.int 1, .int 2] 7
      (by intro v hv; fin_cases hv <;> rfl)

/-- **C6** (code bug).  The claim: every `eachAll(...)` construction whose
argument is neither a check instance nor a default-constructible check
class fails with an `AnnotationConstructionError` tagged with the
construction site's file/line.  Evaluating `_AbstractEachCheck.__init__`
(`checks.py` lines 221-230): for an argument that is a *class* not
subclassing `_AbstractCheck` the claim holds, but for a *non-class* value
such as `42` the guard `issubclass(42, _AbstractCheck)` itself raises a
raw `TypeError`, so the `AnnotationConstructionError` branch — whose
message "received value: %s" was written for exactly such values — is
never reached.  (The two legitimate argument forms construct fine.) -/
theorem C6_eachAll_misuse_with_non_class_raises_raw_TypeError :
    _AbstractEachCheck_init (.otherVal (.int 42)) ⟨"client_code.py", 7⟩
      = .typeErrorRaised "issubclass() arg 1 must be a class"
    ∧ _AbstractEachCheck_init (.otherCls .int) ⟨"client_code.py", 7⟩
      = .annotationConstructionError "eachAll" ⟨"client_code.py", 7⟩
          "expected an _AbstractCheck instance; received value: int"
    ∧ _AbstractEachCheck_init (.inst .isPositive) ⟨"client_code.py", 7⟩
      = .ok (.eachAll .isPositive)
    ∧ _AbstractEachCheck_init (.checkCls .isNotEmptyCls) ⟨"client_code.py", 7⟩
      = .ok (.eachAll .isNotEmpty) :=
  ⟨rfl, rfl, rfl, rfl⟩

/-- **C7** (confirmed).  Whenever the external binder rejects a call (for
any signature, any compiled checks, any arguments — e.g. a missing
required parameter), `check_args_one_call` raises
`CallArgBindingRejection` wrapping the binder's own message verbatim; no
compiled check is consulted (the same rejection results whatever the
checks are). -/
theorem C7_binding_failure_wraps_binder_message
    (arg_checks_for_params : List (PyParam × List Check))
    (pos_args : List PyVal) (kwd_args : List (String × PyVal)) (msg : String)
    (h : Signature_bind_apply_defaults (arg_checks_for_params.map Prod.fst)
          pos_args kwd_args = .error msg) :
    check_args_one_call arg_checks_for_params pos_args kwd_args
      = .error (.callArgBindingRejection msg) := by
  rw [check_args_one_call, h]

/-- **C7** (witness).  A call to a two-parameter function that omits the
required parameter `p_2` — a parameter carrying an `int` type constraint:
the binder fails with `missing a required argument: 'p_2'` and the call
raises the `CallArgBindingRejection` wrapping that very message, not a
check violation. -/
theorem C7_binding_failure_wraps_binder_message_witness :
    Signature_bind_apply_defaults
        [⟨"p_1", none, none⟩, ⟨"p_2", none, some (.cls .int)⟩] [.int 3] []
      = .error "missing a required argument: 'p_2'"
    ∧ check_args_one_call
        [(⟨"p_1", none, none⟩, []),
         (⟨"p_2", none, some (.cls .int)⟩, [.isTypeEqualTo .int])]
        [.int 3] []
      = .error (.callArgBindingRejection "missing a required argument: 'p_2'") :=
  ⟨rfl,
   C7_binding_failure_wraps_binder_message
      [(⟨"p_1", none, none⟩, []),
       (⟨"p_2", none, some (.cls .int)⟩, [.isTypeEqualTo .int])]
      [.int 3] [] "missing a required argument: 'p_2'" rfl⟩

end Argcheck

namespace Argcheck

/-- **C8** (confirmed).  A single positional-or-keyword parameter declared
with annotation `T` and a default value `d` that violates the `T`
constraint: a call supplying an argument `v` that satisfies the
constraint raises no error, while a call that omits the parameter
substitutes the default `d` (via `bind` + `apply_defaults`), checks it
like any other bound value, and raises the corresponding
`CallArgTypeCheckViolation` — on the default value, reported at the
parameter's index. -/
theorem C8_default_value_checked_only_when_substituted (T : PyType)
    (param_name : String) (d v : PyVal)
    (hv : Check.is_valid (.isTypeEqualTo T) v = .pass)
    (hd : Check.is_valid (.isTypeEqualTo T) d = .fail) :
    check_args_one_call [(⟨param_name, some d, some (.cls T)⟩, [.isTypeEqualTo T])]
        [v] [] = .ok ()
    ∧ check_args_one_call [(⟨param_name, some d, some (.cls T)⟩, [.isTypeEqualTo T])]
        [] []
      = .error (.callArgTypeCheckViolation ⟨0, param_name⟩ ⟨.idx 0, d⟩
          (.isTypeEqualTo T) (.cls T) (type_of d)) := by
  constructor
  · simp [check_args_one_call, Signature_bind_apply_defaults,
      Signature_bind_kwdPhase, lookupKwd, checkParamsLoop,
      _check_one_param_one_arg, hv]
  · simp [check_args_one_call, Signature_bind_apply_defaults,
      Signature_bind_kwdPhase, lookupKwd, checkParamsLoop,
      _check_one_param_one_arg, hd, Check.to_raise_on_failed_check,
      argIdxOrKwd]

/-- **C8** (witness).  The theorem at the test-suite's own example
(`deco_1_params_annot_int_dflt_str`): parameter `p: int = "hello"`; the
call `f(5)` succeeds, the call `f()` substitutes `"hello"` and raises the
type violation with declared type `int` and received type `str`. -/
theorem C8_default_value_checked_only_when_substituted_witness :
    check_args_one_call [(⟨"p", some (.str "hello"), some (.cls .int)⟩,
        [.isTypeEqualTo .int])] [.int 5] [] = .ok ()
    ∧ check_args_one_call [(⟨"p", some (.str "hello"), some (.cls .int)⟩,
        [.isTypeEqualTo .int])] [] []
      = .error (.callArgTypeCheckViolation ⟨0, "p"⟩ ⟨.idx 0, .str "hello"⟩
          (.isTypeEqualTo .int) (.cls .int) .str) :=
  C8_default_value_checked_only_when_substituted .int "p" (.str "hello")
      (.int 5) rfl rfl

/-- **C9** (confirmed).  During a call, when a check in a parameter's
compiled sequence raises `_InternalExecutionError(op, val)` from inside
its own evaluation logic (after any earlier checks passed),
`_check_one_param_one_arg` catches it and raises
`CallArgCheckExecutionError` naming the check that was executing, the
operation that failed and the offending value; by construction of the
executor's error type, no raw low-level error reaches the caller. -/
theorem C9_internal_execution_error_translated (param_idx : Nat)
    (decl_param_name : String) (arg_kwd : Option String) (bound_arg : PyVal)
    (pre : List Check) (c : Check) (rest : List Check) (op : String) (v : PyVal)
    (hpre : ∀ c' ∈ pre, Check.is_valid c' bound_arg = .pass)
    (hc : Check.is_valid c bound_arg = .execError op v) :
    _check_one_param_one_arg param_idx decl_param_name arg_kwd bound_arg
        (pre ++ c :: rest)
      = .error (.callArgCheckExecutionError ⟨param_idx, decl_param_name⟩
          ⟨argIdxOrKwd arg_kwd param_idx, bound_arg⟩ c op v) := by
  induction pre with
  | nil => simp only [List.nil_append, _check_one_param_one_arg, hc]
  | cons a as ih =>
      have ha : Check.is_valid a bound_arg = .pass :=
        hpre a (List.mem_cons_self a as)
      simp only [List.cons_append, _check_one_param_one_arg, ha]
      exact ih (fun c' h' => hpre c' (List.mem_cons_of_mem a h'))

/-- **C9** (witness).  The theorem at the concrete case `isNotEmpty`
checked against the integer `5`: `len(5)` is unsupported, so the check's
`is_valid` raises `_InternalExecutionError("len(x)", 5)` and the call
raises `CallArgCheckExecutionError` naming `isNotEmpty`, the operation
`len(x)` and the value `5`. -/
theorem C9_internal_execution_error_translated_witness :
    _check_one_param_one_arg 0 "p" none (.int 5) [.isNotEmpty]
      = .error (.callArgCheckExecutionError ⟨0, "p"⟩ ⟨.idx 0, .int 5⟩
          .isNotEmpty "len(x)" (.int 5)) :=
  C9_internal_execution_error_translated 0 "p" none (.int 5) [] .isNotEmpty []
      "len(x)" (.int 5) (fun c' h' => absurd h' (List.not_mem_nil c')) rfl

/-- **C10** (code bug).  The claim: `eachAll(c).is_valid` iterates in
order, short-circuits at the *first* element on which the inner check `c`
fails, and reports that element's index and value; e.g. with
`c = isTypeEqualTo(int)` on `[1, 2, "x"]` it reports index 2 and element
`"x"`, and an empty sequence passes for any inner check.  Those two parts
hold — but the universal claim fails: the loop tests the inner result
with `if not c.is_valid(elem)` (`checks.py` line 259), and when the inner
check is itself an `eachAll` its failure is a non-empty (truthy) context
dict, so the failure is treated as success.  Evaluating at the failing
input: the inner `eachAll(isTypeEqualTo(int))` fails on the single
element `["x"]` at index 0, yet the outer `eachAll` *passes* on
`[["x"]]`. -/
theorem C10_eachAll_inner_context_failure_not_short_circuited :
    Check.is_valid (.eachAll (.eachAll (.isTypeEqualTo .int)))
        (.list [.list [.str "x"]]) = .pass
    ∧ Check.is_valid (.eachAll (.isTypeEqualTo .int)) (.list [.str "x"])
      = .failWithContext 0 (.str "x")
    ∧ Check.is_valid (.eachAll (.isTypeEqualTo .int))
        (.list [.int 1, .int 2, .str "x"]) = .failWithContext 2 (.str "x")
    ∧ ∀ c : Check, Check.is_valid (.eachAll c) (.list []) = .pass :=
  ⟨rfl, rfl, rfl, fun _ => rfl⟩

end Argcheck
